import Mathlib

/-!
Verification of the `logisim_cli_emit` Python wrapper against its
specification.

The wrapper builds a flat CLI token list from a structured request,
spawns an external process (the Gradle `emitComponent` task, or `java -cp`
on a prebuilt jar), checks the exit code, and decodes trimmed stdout as
JSON.

Shallow embedding conventions:
* A keyword-argument request is a `Request` record; `None` defaults become
  `Option.none`.
* The external process (`subprocess.run`) is a parameter
  `run : List String → ProcResult` mapping the spawned command to its
  captured exit code / stdout / stderr.
* The standard-library JSON parser (`json.loads`) is a parameter
  `loads : String → Except String Json`; a raised
  `json.JSONDecodeError` is an `Except.error`.
* A raised Python exception is `Except.error` of `EmitError`:
  `EmitError.runtime` for the `RuntimeError` raised on a strict-check
  failure, `EmitError.jsonDecode` for a propagated JSON decode error.
* The host-OS check `os.name == "nt"` is a Boolean parameter `os_is_nt`.

Source: `src/logisim_cli_emit/__init__.py` and
`src/logisim_cli_emit/__main__.py`.
-/

set_option autoImplicit false

/-- A JSON value, as produced by the JSON decoder.  Numeric fidelity is
irrelevant to the wrapper (values pass through opaquely), so numbers are
modelled as integers. -/
inductive Json where
  | null : Json
  | bool : Bool → Json
  | num : Int → Json
  | str : String → Json
  | arr : List Json → Json
  | obj : List (String × Json) → Json

/-- Captured outcome of one `subprocess.run` call: exit code plus the
decoded stdout/stderr text (`capture_output=True, text=True`). -/
structure ProcResult where
  returncode : Int
  stdout : String
  stderr : String

/-- `EmitResult` dataclass (source lines 12-15): raw trimmed stdout plus
the parsed JSON data. -/
structure EmitResult where
  stdout : String
  data : Json

/-- An exception escaping `emit_component` / `emit_component_jar`:
the `RuntimeError` raised on a strict non-zero-exit check, or a
propagated (uncaught) JSON decode error from `json.loads`. -/
inductive EmitError where
  | runtime : String → EmitError
  | jsonDecode : String → EmitError

/-- The keyword parameters accepted by `_build_cli_args` (and forwarded
by both emit functions).  `attrs` is the `Mapping[str, str]` in its
iteration order; `extra_args` is the `Sequence[str]`. -/
structure Request where
  component : String
  attrs : Option (List (String × String))
  location : Option String
  xml_out : Option String
  xml_pretty : Bool
  pins_out : Option String
  extra_args : Option (List String)

/-- Python truthiness of an `Optional[Mapping]` / `Optional[Sequence]`
value: `None` and the empty collection are falsy. -/
def pyTruthyList {α : Type} : Option (List α) → Bool
  | none => false
  | some l => !l.isEmpty

/-- Python truthiness of an `Optional[str]` value: `None` and the empty
string are falsy. -/
def pyTruthyStr : Option String → Bool
  | none => false
  | some s => !(s == "")

/-- Python `str.isspace` on the characters removed by `str.strip()`:
space, tab, newline, carriage return, vertical tab, form feed. -/
def pyIsSpace (c : Char) : Bool :=
  c == ' ' || c == '\t' || c == '\n' || c == '\r' || c == '\x0b' || c == '\x0c'

/-- Python `str.strip()`: remove leading and trailing whitespace. -/
def py_strip (s : String) : String :=
  String.mk (((s.data.dropWhile pyIsSpace).reverse.dropWhile pyIsSpace).reverse)

/-- The `for name, value in attrs.items(): args.extend(["--attr", f"..."])`
loop (source lines 30-31): two tokens per entry, in iteration order. -/
def attrTokens : List (String × String) → List String
  | [] => []
  | (name, value) :: rest => "--attr" :: (name ++ "=" ++ value) :: attrTokens rest

/-- `_build_cli_args` (source lines 18-42): successive conditional
`extend`/`append` calls on `args`, rendered as concatenation of the
conditional segments in source order. -/
def _build_cli_args (r : Request) : List String :=
  ["--component", r.component]
    ++ (if pyTruthyList r.attrs then attrTokens (r.attrs.getD []) else [])
    ++ (if pyTruthyStr r.location then ["--loc", r.location.getD ""] else [])
    ++ (if r.xml_pretty then ["--xml-pretty"] else [])
    ++ (if pyTruthyStr r.xml_out then ["--xml-out", r.xml_out.getD ""] else [])
    ++ (if pyTruthyStr r.pins_out then ["--pins-out", r.pins_out.getD ""] else [])
    ++ (if pyTruthyList r.extra_args then r.extra_args.getD [] else [])

/-- Gradle wrapper path resolution (source lines 83-84): the default is
host-OS dependent when the caller passes `None`. -/
def resolved_gradle_path (os_is_nt : Bool) (gradle_path : Option String) : String :=
  match gradle_path with
  | none => if os_is_nt then "gradlew.bat" else "./gradlew"
  | some p => p

/-- The command list spawned by `emit_component` (source lines 85-86):
the built tokens are space-joined into a single `--args=` option. -/
def emit_component_command (os_is_nt : Bool) (r : Request)
    (gradle_path : Option String) : List String :=
  let args := _build_cli_args r
  let args_value := String.intercalate " " args
  [resolved_gradle_path os_is_nt gradle_path, "--daemon", "-q", "emitComponent",
    "--args=" ++ args_value]

/-- The command list spawned by `emit_component_jar` (source lines
128-134): the built tokens are passed as separate process arguments after
the entry-point class. -/
def emit_component_jar_command (r : Request) (jar_path java_path : String) :
    List String :=
  java_path :: "-cp" :: jar_path :: "com.cburch.logisim.cli.EmitComponentCli"
    :: _build_cli_args r

/-- The tail of both emit functions (source lines 100-102 and 148-150):
trim stdout, decode as JSON when non-empty, empty mapping otherwise;
a decode failure propagates. -/
def decode_result (loads : String → Except String Json) (raw : String) :
    Except EmitError EmitResult :=
  let stdout := py_strip raw
  match (if stdout != "" then loads stdout else Except.ok (Json.obj [])) with
  | Except.ok data => Except.ok (EmitResult.mk stdout data)
  | Except.error e => Except.error (EmitError.jsonDecode e)

/-- `emit_component` (source lines 45-102).  `run` models
`subprocess.run` on the constructed command; `loads` models
`json.loads`. -/
def emit_component (os_is_nt : Bool) (run : List String → ProcResult)
    (loads : String → Except String Json) (r : Request)
    (gradle_path : Option String) (check : Bool) : Except EmitError EmitResult :=
  let result := run (emit_component_command os_is_nt r gradle_path)
  if check && result.returncode != 0 then
    Except.error (EmitError.runtime
      ("emitComponent failed (exit=" ++ toString result.returncode ++ "): "
        ++ py_strip result.stderr))
  else
    decode_result loads result.stdout

/-- `emit_component_jar` (source lines 105-150). -/
def emit_component_jar (run : List String → ProcResult)
    (loads : String → Except String Json) (r : Request)
    (jar_path java_path : String) (check : Bool) : Except EmitError EmitResult :=
  let result := run (emit_component_jar_command r jar_path java_path)
  if check && result.returncode != 0 then
    Except.error (EmitError.runtime
      ("emitComponent failed (exit=" ++ toString result.returncode ++ "): "
        ++ py_strip result.stderr))
  else
    decode_result loads result.stdout

/-- Characters `shlex.quote` leaves unquoted: ASCII word characters and
the punctuation `@ % + = : , . slash dash` (the complement of Python's
`_find_unsafe` pattern). -/
def shlexSafeChar (c : Char) : Bool :=
  (('a' ≤ c && c ≤ 'z') || ('A' ≤ c && c ≤ 'Z') || ('0' ≤ c && c ≤ '9')
    || c == '_' || c == '@' || c == '%' || c == '+' || c == '=' || c == ':'
    || c == ',' || c == '.' || c == '/' || c == '-')

/-- Replace every single-quote character by the five-character escape
sequence quote double-quote quote double-quote quote, as
`s.replace` with a one-character needle does in `shlex.quote`. -/
def escapeQuoteChars : List Char → List Char
  | [] => []
  | c :: rest =>
    if c = '\x27' then '\x27' :: '\x22' :: '\x27' :: '\x22' :: '\x27' :: escapeQuoteChars rest
    else c :: escapeQuoteChars rest

/-- `shlex.quote`: empty strings become a pair of single quotes; strings
of safe characters pass through; anything else is wrapped in single
quotes with embedded single quotes escaped. -/
def shlex_quote (s : String) : String :=
  if s = "" then "\x27\x27"
  else if s.data.all shlexSafeChar then s
  else "\x27" ++ String.mk (escapeQuoteChars s.data) ++ "\x27"

/-- `shlex.join`: space-join of the quoted tokens. -/
def shlex_join (argv : List String) : String :=
  String.intercalate " " (argv.map shlex_quote)

/-- The command list spawned by `__main__.main` (source
`__main__.py` lines 8-9): `--args` and the shlex-joined argv are two
separate tokens. -/
def main_command (argv : List String) : List String :=
  ["./gradlew", "-q", "emitComponent", "--args", shlex_join argv]

/-- `__main__.main` (source `__main__.py` lines 7-11): spawn the command
and return the external process's exit code.  `run` models
`subprocess.run(...).returncode`.  (Named `cli_main` because Lean
reserves the identifier `main` for executables.) -/
def cli_main (run : List String → Int) (argv : List String) : Int :=
  run (main_command argv)

/-! ## Specification-side descriptions of the argument builder -/

/-- The spec's optional-pair segment read literally: `--loc <loc>` (resp.
`--xml-out`, `--pins-out`) is emitted whenever the value is given, with
no further condition. -/
def spec_opt_tokens (flag : String) : Option String → List String
  | none => []
  | some s => [flag, s]

/-- The amended optional-pair segment: the pair is emitted when the value
is given and non-empty (Python truthiness of the optional string). -/
def claimed_opt_tokens (flag : String) : Option String → List String
  | none => []
  | some s => if s = "" then [] else [flag, s]

/-- The token sequence described by the spec sentence for the argument
builder, read literally: optional pairs appear whenever the parameter is
given (`some`), even when its value is the empty string. -/
def claimed_cli_args_spec (r : Request) : List String :=
  ["--component", r.component]
    ++ (r.attrs.getD []).flatMap (fun p => ["--attr", p.1 ++ "=" ++ p.2])
    ++ spec_opt_tokens "--loc" r.location
    ++ (if r.xml_pretty then ["--xml-pretty"] else [])
    ++ spec_opt_tokens "--xml-out" r.xml_out
    ++ spec_opt_tokens "--pins-out" r.pins_out
    ++ r.extra_args.getD []

/-- The amended token sequence: as the spec sentence, except that an
optional pair is emitted only when the given value is non-empty. -/
def claimed_cli_args (r : Request) : List String :=
  ["--component", r.component]
    ++ (r.attrs.getD []).flatMap (fun p => ["--attr", p.1 ++ "=" ++ p.2])
    ++ claimed_opt_tokens "--loc" r.location
    ++ (if r.xml_pretty then ["--xml-pretty"] else [])
    ++ claimed_opt_tokens "--xml-out" r.xml_out
    ++ claimed_opt_tokens "--pins-out" r.pins_out
    ++ r.extra_args.getD []

/-- Maps an optional string to `none` when it is Python-falsy. -/
def norm_opt_str : Option String → Option String
  | none => none
  | some s => if s = "" then none else some s

/-- Maps an optional list to `none` when it is Python-falsy. -/
def norm_opt_list {α : Type} : Option (List α) → Option (List α)
  | none => none
  | some l => if l.isEmpty then none else some l

/-- Replaces every falsy optional parameter of a request by an omitted
one. -/
def norm_request (r : Request) : Request :=
  Request.mk r.component (norm_opt_list r.attrs) (norm_opt_str r.location)
    (norm_opt_str r.xml_out) r.xml_pretty (norm_opt_str r.pins_out)
    (norm_opt_list r.extra_args)

/-! ## Helper lemmas about the argument builder -/

theorem attrTokens_eq_flatMap (l : List (String × String)) :
    attrTokens l = l.flatMap (fun p => ["--attr", p.1 ++ "=" ++ p.2]) := by
  induction l with
  | nil => rfl
  | cons p rest ih => obtain ⟨n, v⟩ := p; simp [attrTokens, ih]

theorem attrs_segment_eq (a : Option (List (String × String))) :
    (if pyTruthyList a then attrTokens (a.getD []) else [])
      = (a.getD []).flatMap (fun p => ["--attr", p.1 ++ "=" ++ p.2]) := by
  cases a with
  | none => rfl
  | some l =>
    cases l with
    | nil => rfl
    | cons hd tl => simp [pyTruthyList, attrTokens_eq_flatMap]

theorem str_segment_eq (flag : String) (o : Option String) :
    (if pyTruthyStr o then [flag, o.getD ""] else []) = claimed_opt_tokens flag o := by
  cases o with
  | none => rfl
  | some s =>
    by_cases h : s = "" <;> simp [pyTruthyStr, claimed_opt_tokens, h]

theorem extra_segment_eq (e : Option (List String)) :
    (if pyTruthyList e then e.getD [] else []) = e.getD [] := by
  cases e with
  | none => rfl
  | some l => cases l <;> simp [pyTruthyList]

theorem build_eq_claimed (r : Request) : _build_cli_args r = claimed_cli_args r := by
  simp only [_build_cli_args, claimed_cli_args, attrs_segment_eq, str_segment_eq,
    extra_segment_eq]

/-! ## Claims about the argument builder -/

/-- C1 (counterexample): the spec's token sequence, read literally,
disagrees with `_build_cli_args` when the location is given as the empty
string: the builder's Python-truthiness test drops the `--loc` pair. -/
theorem C1_counterexample :
    (_build_cli_args (Request.mk "Pin" none (some "") none false none none)
        == claimed_cli_args_spec (Request.mk "Pin" none (some "") none false none none)) = false
      ∧ _build_cli_args (Request.mk "Pin" none (some "") none false none none)
          = ["--component", "Pin"]
      ∧ claimed_cli_args_spec (Request.mk "Pin" none (some "") none false none none)
          = ["--component", "Pin", "--loc", ""] := by
  refine ⟨by decide, by decide, by decide⟩

/-- C1 (amended): for every request the argument builder returns exactly
`--component <name>`, then one `--attr name=value` pair per attrs entry,
then `--loc <loc>` if the location is given and non-empty, then
`--xml-pretty` if the flag is true, then `--xml-out <path>` and
`--pins-out <path>` if given and non-empty, then the extra arguments in
their given order, unmodified; and on the spec's concrete example it
returns exactly the listed six tokens. -/
theorem C1_build_cli_args_amended :
    (∀ r : Request, _build_cli_args r = claimed_cli_args r)
      ∧ _build_cli_args
          (Request.mk "AND Gate" (some [("facing", "east")]) (some "40,20") none false none none)
          = ["--component", "AND Gate", "--attr", "facing=east", "--loc", "40,20"] := by
  exact ⟨build_eq_claimed, by decide⟩

/-- C10: the argument builder treats every falsy optional value exactly
like an omitted one: normalising empty strings, empty collections (and
`none` itself) to `none` leaves the built token list unchanged. -/
theorem C10_falsy_omitted (r : Request) :
    _build_cli_args (norm_request r) = _build_cli_args r := by
  rw [build_eq_claimed, build_eq_claimed]
  obtain ⟨c, a, lo, xo, xp, po, ea⟩ := r
  simp only [claimed_cli_args, norm_request]
  have hstr : ∀ (flag : String) (o : Option String),
      claimed_opt_tokens flag (norm_opt_str o) = claimed_opt_tokens flag o := by
    intro flag o
    cases o with
    | none => rfl
    | some s => by_cases h : s = "" <;> simp [norm_opt_str, claimed_opt_tokens, h]
  have hlist : ∀ (l : Option (List String)), (norm_opt_list l).getD [] = l.getD [] := by
    intro l
    cases l with
    | none => rfl
    | some xs => cases xs <;> simp [norm_opt_list]
  have hattrs : ∀ (a : Option (List (String × String))),
      (norm_opt_list a).getD [] = a.getD [] := by
    intro a
    cases a with
    | none => rfl
    | some xs => cases xs <;> simp [norm_opt_list]
  simp [hstr, hlist, hattrs]

/-- An `--attr` value token always contains an equals sign, so it can
never collide with the `--attr` flag token itself. -/
theorem attr_value_ne (n v : String) : ¬(n ++ "=" ++ v = "--attr") := by
  intro h
  have hd : (n ++ "=" ++ v).data = "--attr".data := congrArg String.data h
  rw [String.data_append, String.data_append] at hd
  have hm : ('=' : Char) ∈ "--attr".data := by
    rw [← hd]
    exact List.mem_append_left _ (List.mem_append_right _ (by decide))
  revert hm
  decide

/-- Each attrs entry contributes exactly one `--attr` token. -/
theorem count_attrTokens (l : List (String × String)) :
    (attrTokens l).count "--attr" = l.length := by
  induction l with
  | nil => rfl
  | cons p rest ih =>
    obtain ⟨n, v⟩ := p
    simp [attrTokens, List.count_cons, ih, attr_value_ne n v]

/-- C7: for every attrs mapping (and component name other than the
literal flag token `--attr`) handed to the argument builder with the
remaining options at their defaults, the number of `--attr` tokens in
the built sequence equals the number of attrs entries, and the pairs
appear right after the component pair, each flag followed by its
`name=value` token, in the mapping's iteration order. -/
theorem C7_attr_pairs (c : String) (attrs : List (String × String))
    (hc : c ≠ "--attr") :
    (_build_cli_args (Request.mk c (some attrs) none none false none none)).count "--attr"
        = attrs.length
      ∧ _build_cli_args (Request.mk c (some attrs) none none false none none)
          = "--component" :: c :: attrs.flatMap (fun p => ["--attr", p.1 ++ "=" ++ p.2]) := by
  have hbuild : _build_cli_args (Request.mk c (some attrs) none none false none none)
      = "--component" :: c :: attrTokens attrs := by
    rw [build_eq_claimed]
    simp [claimed_cli_args, claimed_opt_tokens, attrTokens_eq_flatMap]
  constructor
  · rw [hbuild]
    simp [List.count_cons, count_attrTokens, hc]
  · rw [hbuild, attrTokens_eq_flatMap]

/-- C7 witness: a concrete two-entry mapping yields exactly two `--attr`
tokens in iteration order. -/
theorem C7_witness :
    ("AND Gate" ≠ "--attr")
      ∧ ((_build_cli_args (Request.mk "AND Gate"
            (some [("facing", "east"), ("size", "30")]) none none false none none)).count "--attr"
            = 2
          ∧ _build_cli_args (Request.mk "AND Gate"
              (some [("facing", "east"), ("size", "30")]) none none false none none)
            = "--component" :: "AND Gate"
              :: [("facing", "east"), ("size", "30")].flatMap
                  (fun p => ["--attr", p.1 ++ "=" ++ p.2])) :=
  ⟨by decide, C7_attr_pairs "AND Gate" [("facing", "east"), ("size", "30")] (by decide)⟩

/-- C8: both invocation variants share the argument-building logic: the
tokens `emit_component_jar` passes as separate process arguments after
the entry-point class (everything past the first four command tokens)
are exactly the built tokens, and the final `--args=` token of
`emit_component`'s command space-joins exactly that token list. -/
theorem C8_shared_args (os_is_nt : Bool) (r : Request) (gp : Option String)
    (jar_path java_path : String) :
    List.drop 4 (emit_component_jar_command r jar_path java_path) = _build_cli_args r
      ∧ emit_component_command os_is_nt r gp
          = [resolved_gradle_path os_is_nt gp, "--daemon", "-q", "emitComponent",
              "--args="
                ++ String.intercalate " "
                    (List.drop 4 (emit_component_jar_command r jar_path java_path))] := by
  constructor
  · rfl
  · rfl

/-! ## Invocation behaviour -/

/-- `hay` contains `needle` as a contiguous substring. -/
def str_contains (hay needle : String) : Prop :=
  ∃ pre post, hay = pre ++ needle ++ post

/-- Whether an invocation outcome is the strict-check `RuntimeError`. -/
def is_runtime_error : Except EmitError EmitResult → Bool
  | Except.error (EmitError.runtime _) => true
  | _ => false

/-- Whether a JSON value is a string-keyed mapping (a JSON object). -/
def is_mapping : Json → Bool
  | Json.obj _ => true
  | _ => false

theorem emit_component_nonzero (os_is_nt : Bool) (run : List String → ProcResult)
    (loads : String → Except String Json) (r : Request) (gp : Option String)
    (h : (run (emit_component_command os_is_nt r gp)).returncode ≠ 0) :
    emit_component os_is_nt run loads r gp true
      = Except.error (EmitError.runtime
          ("emitComponent failed (exit="
            ++ toString (run (emit_component_command os_is_nt r gp)).returncode ++ "): "
            ++ py_strip (run (emit_component_command os_is_nt r gp)).stderr)) := by
  simp [emit_component, h]

theorem emit_component_jar_nonzero (run : List String → ProcResult)
    (loads : String → Except String Json) (r : Request) (jar_path java_path : String)
    (h : (run (emit_component_jar_command r jar_path java_path)).returncode ≠ 0) :
    emit_component_jar run loads r jar_path java_path true
      = Except.error (EmitError.runtime
          ("emitComponent failed (exit="
            ++ toString (run (emit_component_jar_command r jar_path java_path)).returncode ++ "): "
            ++ py_strip (run (emit_component_jar_command r jar_path java_path)).stderr)) := by
  simp [emit_component_jar, h]

theorem emit_component_no_abort (os_is_nt : Bool) (run : List String → ProcResult)
    (loads : String → Except String Json) (r : Request) (gp : Option String)
    (check : Bool)
    (h : check = false ∨ (run (emit_component_command os_is_nt r gp)).returncode = 0) :
    emit_component os_is_nt run loads r gp check
      = decode_result loads (run (emit_component_command os_is_nt r gp)).stdout := by
  have hc : (check && ((run (emit_component_command os_is_nt r gp)).returncode != 0)) = false := by
    rcases h with h | h <;> simp [h]
  simp [emit_component, hc]

theorem emit_component_jar_no_abort (run : List String → ProcResult)
    (loads : String → Except String Json) (r : Request) (jar_path java_path : String)
    (check : Bool)
    (h : check = false ∨ (run (emit_component_jar_command r jar_path java_path)).returncode = 0) :
    emit_component_jar run loads r jar_path java_path check
      = decode_result loads (run (emit_component_jar_command r jar_path java_path)).stdout := by
  have hc : (check && ((run (emit_component_jar_command r jar_path java_path)).returncode != 0))
      = false := by
    rcases h with h | h <;> simp [h]
  simp [emit_component_jar, hc]

theorem string_append_empty_right (s : String) : s ++ "" = s := by
  apply congrArg String.mk
  exact List.append_nil s.data

/-- C2: with strict checking enabled, a non-zero exit code makes either
invocation variant fail with a `RuntimeError` whose message contains the
exit code and the trimmed stderr text. -/
theorem C2_strict_failure_raises (os_is_nt : Bool) (run : List String → ProcResult)
    (loads : String → Except String Json) (r : Request) (gp : Option String)
    (jar_path java_path : String) :
    ((run (emit_component_command os_is_nt r gp)).returncode ≠ 0 →
      ∃ m, emit_component os_is_nt run loads r gp true
            = Except.error (EmitError.runtime m)
          ∧ str_contains m (toString (run (emit_component_command os_is_nt r gp)).returncode)
          ∧ str_contains m (py_strip (run (emit_component_command os_is_nt r gp)).stderr))
    ∧ ((run (emit_component_jar_command r jar_path java_path)).returncode ≠ 0 →
      ∃ m, emit_component_jar run loads r jar_path java_path true
            = Except.error (EmitError.runtime m)
          ∧ str_contains m
              (toString (run (emit_component_jar_command r jar_path java_path)).returncode)
          ∧ str_contains m
              (py_strip (run (emit_component_jar_command r jar_path java_path)).stderr)) := by
  constructor
  · intro h
    refine ⟨_, emit_component_nonzero os_is_nt run loads r gp h, ?_, ?_⟩
    · exact ⟨"emitComponent failed (exit=",
        "): " ++ py_strip (run (emit_component_command os_is_nt r gp)).stderr,
        by rw [String.append_assoc]⟩
    · exact ⟨"emitComponent failed (exit="
          ++ toString (run (emit_component_command os_is_nt r gp)).returncode ++ "): ", "",
        (string_append_empty_right _).symm⟩
  · intro h
    refine ⟨_, emit_component_jar_nonzero run loads r jar_path java_path h, ?_, ?_⟩
    · exact ⟨"emitComponent failed (exit=",
        "): " ++ py_strip (run (emit_component_jar_command r jar_path java_path)).stderr,
        by rw [String.append_assoc]⟩
    · exact ⟨"emitComponent failed (exit="
          ++ toString (run (emit_component_jar_command r jar_path java_path)).returncode
          ++ "): ", "",
        (string_append_empty_right _).symm⟩

/-- C2 witness: exit code 1 with stderr `boom` raises a runtime error
whose message contains both `1` and `boom`. -/
theorem C2_witness :
    ((fun _ => ProcResult.mk 1 "" "boom") (emit_component_command false
          (Request.mk "Pin" none none none false none none) none)).returncode ≠ 0
      ∧ (∃ m, emit_component false (fun _ => ProcResult.mk 1 "" "boom")
              (fun _ => Except.error "x")
              (Request.mk "Pin" none none none false none none) none true
            = Except.error (EmitError.runtime m)
          ∧ str_contains m "1" ∧ str_contains m "boom") := by
  refine ⟨by decide, ?_⟩
  have h := (C2_strict_failure_raises false (fun _ => ProcResult.mk 1 "" "boom")
    (fun _ => Except.error "x") (Request.mk "Pin" none none none false none none)
    none "jar" "java").1 (by decide)
  exact h

theorem decode_result_empty (loads : String → Except String Json) (raw : String)
    (h : py_strip raw = "") :
    decode_result loads raw = Except.ok (EmitResult.mk "" (Json.obj [])) := by
  simp [decode_result, h]

theorem decode_result_loads_ok (loads : String → Except String Json) (raw : String)
    (d : Json) (h1 : py_strip raw ≠ "") (h2 : loads (py_strip raw) = Except.ok d) :
    decode_result loads raw = Except.ok (EmitResult.mk (py_strip raw) d) := by
  simp [decode_result, h1, h2]

theorem decode_result_loads_err (loads : String → Except String Json) (raw : String)
    (e : String) (h1 : py_strip raw ≠ "") (h2 : loads (py_strip raw) = Except.error e) :
    decode_result loads raw = Except.error (EmitError.jsonDecode e) := by
  simp [decode_result, h1, h2]

theorem decode_result_never_runtime (loads : String → Except String Json) (raw : String) :
    is_runtime_error (decode_result loads raw) = false := by
  by_cases h1 : py_strip raw = ""
  · rw [decode_result_empty loads raw h1]; rfl
  · cases h2 : loads (py_strip raw) with
    | ok d => rw [decode_result_loads_ok loads raw d h1 h2]; rfl
    | error e => rw [decode_result_loads_err loads raw e h1 h2]; rfl

theorem decode_result_ok_inv (loads : String → Except String Json) (raw : String)
    (res : EmitResult) (h : decode_result loads raw = Except.ok res) :
    res.stdout = py_strip raw
      ∧ ((py_strip raw = "" ∧ res.data = Json.obj [])
          ∨ loads (py_strip raw) = Except.ok res.data) := by
  by_cases h1 : py_strip raw = ""
  · rw [decode_result_empty loads raw h1] at h
    cases Except.ok.inj h
    exact ⟨h1.symm, Or.inl ⟨h1, rfl⟩⟩
  · cases h2 : loads (py_strip raw) with
    | ok d =>
      rw [decode_result_loads_ok loads raw d h1 h2] at h
      have hres := Except.ok.inj h
      refine ⟨by rw [← hres], Or.inr ?_⟩
      rw [← hres]
    | error e =>
      rw [decode_result_loads_err loads raw e h1 h2] at h
      exact absurd h (by simp)

/-- C3: after an invocation that is not aborted by the strict exit-code
check, the result is exactly the decoder applied to the raw stdout, and
the decoder yields an empty mapping without consulting the JSON parser on
empty trimmed stdout, the parsed value on valid JSON, and the propagated
decode error otherwise. -/
theorem C3_result_decoder (os_is_nt : Bool) (run : List String → ProcResult)
    (loads : String → Except String Json) (r : Request) (gp : Option String)
    (jar_path java_path : String) (check : Bool) :
    ((check = false ∨ (run (emit_component_command os_is_nt r gp)).returncode = 0) →
      emit_component os_is_nt run loads r gp check
        = decode_result loads (run (emit_component_command os_is_nt r gp)).stdout)
    ∧ ((check = false ∨ (run (emit_component_jar_command r jar_path java_path)).returncode = 0) →
      emit_component_jar run loads r jar_path java_path check
        = decode_result loads (run (emit_component_jar_command r jar_path java_path)).stdout)
    ∧ (∀ (loads2 : String → Except String Json) (raw : String), py_strip raw = "" →
      decode_result loads2 raw = Except.ok (EmitResult.mk "" (Json.obj [])))
    ∧ (∀ (loads2 : String → Except String Json) (raw : String) (d : Json),
      py_strip raw ≠ "" → loads2 (py_strip raw) = Except.ok d →
      decode_result loads2 raw = Except.ok (EmitResult.mk (py_strip raw) d))
    ∧ (∀ (loads2 : String → Except String Json) (raw : String) (e : String),
      py_strip raw ≠ "" → loads2 (py_strip raw) = Except.error e →
      decode_result loads2 raw = Except.error (EmitError.jsonDecode e)) :=
  ⟨emit_component_no_abort os_is_nt run loads r gp check,
    emit_component_jar_no_abort run loads r jar_path java_path check,
    decode_result_empty, decode_result_loads_ok, decode_result_loads_err⟩

/-- C3 witness: a zero-exit run with empty stdout decodes to the empty
mapping, and a malformed non-empty stdout propagates the decode error. -/
theorem C3_witness :
    ((true : Bool) = false ∨ ((fun _ => ProcResult.mk 0 "" "") (emit_component_command false
          (Request.mk "Pin" none none none false none none) none)).returncode = 0)
      ∧ emit_component false (fun _ => ProcResult.mk 0 "" "")
          (fun _ => Except.error "Expecting value")
          (Request.mk "Pin" none none none false none none) none true
        = decode_result (fun _ => Except.error "Expecting value") ""
      ∧ py_strip "" = ""
      ∧ decode_result (fun _ => Except.error "Expecting value") ""
        = Except.ok (EmitResult.mk "" (Json.obj [])) := by
  refine ⟨Or.inr (by decide), ?_, rfl, ?_⟩
  · exact (C3_result_decoder false (fun _ => ProcResult.mk 0 "" "")
      (fun _ => Except.error "Expecting value")
      (Request.mk "Pin" none none none false none none) none "jar" "java" true).1
      (Or.inr (by decide))
  · exact (C3_result_decoder false (fun _ => ProcResult.mk 0 "" "")
      (fun _ => Except.error "Expecting value")
      (Request.mk "Pin" none none none false none none) none "jar" "java" true).2.2.1
      (fun _ => Except.error "Expecting value") "" rfl

/-- C4: with strict checking disabled, both invocation variants return
the decoded stdout regardless of the exit code, and the decoder can
never produce the strict-check runtime error; the returned `EmitResult`
depends only on the captured stdout text, carrying no exit-code
information. -/
theorem C4_nonstrict_decodes :
    (∀ (os_is_nt : Bool) (run : List String → ProcResult)
        (loads : String → Except String Json) (r : Request) (gp : Option String),
      emit_component os_is_nt run loads r gp false
        = decode_result loads (run (emit_component_command os_is_nt r gp)).stdout)
    ∧ (∀ (run : List String → ProcResult) (loads : String → Except String Json)
        (r : Request) (jar_path java_path : String),
      emit_component_jar run loads r jar_path java_path false
        = decode_result loads (run (emit_component_jar_command r jar_path java_path)).stdout)
    ∧ (∀ (loads : String → Except String Json) (raw : String),
      is_runtime_error (decode_result loads raw) = false) :=
  ⟨fun os_is_nt run loads r gp =>
      emit_component_no_abort os_is_nt run loads r gp false (Or.inl rfl),
    fun run loads r jar_path java_path =>
      emit_component_jar_no_abort run loads r jar_path java_path false (Or.inl rfl),
    decode_result_never_runtime⟩

/-- C9: with strict checking enabled the exit-code check runs before any
JSON decoding: a non-zero exit yields the runtime error for every JSON
parser behaviour (even a failing one), and every successfully returned
`EmitResult` comes from a run whose exit code was zero. -/
theorem C9_check_before_decode (os_is_nt : Bool) (run : List String → ProcResult)
    (loads : String → Except String Json) (r : Request) (gp : Option String)
    (jar_path java_path : String) :
    ((run (emit_component_command os_is_nt r gp)).returncode ≠ 0 →
      is_runtime_error (emit_component os_is_nt run loads r gp true) = true)
    ∧ (∀ res, emit_component os_is_nt run loads r gp true = Except.ok res →
      (run (emit_component_command os_is_nt r gp)).returncode = 0)
    ∧ ((run (emit_component_jar_command r jar_path java_path)).returncode ≠ 0 →
      is_runtime_error (emit_component_jar run loads r jar_path java_path true) = true)
    ∧ (∀ res, emit_component_jar run loads r jar_path java_path true = Except.ok res →
      (run (emit_component_jar_command r jar_path java_path)).returncode = 0) := by
  refine ⟨?_, ?_, ?_, ?_⟩
  · intro h
    rw [emit_component_nonzero os_is_nt run loads r gp h]
    rfl
  · intro res hres
    by_contra h
    rw [emit_component_nonzero os_is_nt run loads r gp h] at hres
    exact absurd hres (by simp)
  · intro h
    rw [emit_component_jar_nonzero run loads r jar_path java_path h]
    rfl
  · intro res hres
    by_contra h
    rw [emit_component_jar_nonzero run loads r jar_path java_path h] at hres
    exact absurd hres (by simp)

/-- C9 witness: a non-zero exit with non-empty malformed stdout still
produces the runtime error, for a JSON parser that always fails. -/
theorem C9_witness :
    ((fun _ => ProcResult.mk 1 "not json" "boom") (emit_component_command false
          (Request.mk "Pin" none none none false none none) none)).returncode ≠ 0
      ∧ is_runtime_error (emit_component false (fun _ => ProcResult.mk 1 "not json" "boom")
          (fun _ => Except.error "Expecting value")
          (Request.mk "Pin" none none none false none none) none true) = true := by
  refine ⟨by decide, ?_⟩
  exact (C9_check_before_decode false (fun _ => ProcResult.mk 1 "not json" "boom")
    (fun _ => Except.error "Expecting value")
    (Request.mk "Pin" none none none false none none) none "jar" "java").1 (by decide)

theorem emit_component_ok_inv (os_is_nt : Bool) (run : List String → ProcResult)
    (loads : String → Except String Json) (r : Request) (gp : Option String)
    (check : Bool) (res : EmitResult)
    (h : emit_component os_is_nt run loads r gp check = Except.ok res) :
    decode_result loads (run (emit_component_command os_is_nt r gp)).stdout
      = Except.ok res := by
  by_cases hc : (check && ((run (emit_component_command os_is_nt r gp)).returncode != 0)) = true
  · rw [show emit_component os_is_nt run loads r gp check
        = Except.error (EmitError.runtime ("emitComponent failed (exit="
            ++ toString (run (emit_component_command os_is_nt r gp)).returncode ++ "): "
            ++ py_strip (run (emit_component_command os_is_nt r gp)).stderr)) from by
      simp [emit_component, hc]] at h
    exact absurd h (by simp)
  · have hc' : (check && ((run (emit_component_command os_is_nt r gp)).returncode != 0))
        = false := by
      revert hc
      cases check && ((run (emit_component_command os_is_nt r gp)).returncode != 0) <;> simp
    rw [show emit_component os_is_nt run loads r gp check
        = decode_result loads (run (emit_component_command os_is_nt r gp)).stdout from by
      simp [emit_component, hc']] at h
    exact h

theorem emit_component_jar_ok_inv (run : List String → ProcResult)
    (loads : String → Except String Json) (r : Request) (jar_path java_path : String)
    (check : Bool) (res : EmitResult)
    (h : emit_component_jar run loads r jar_path java_path check = Except.ok res) :
    decode_result loads (run (emit_component_jar_command r jar_path java_path)).stdout
      = Except.ok res := by
  by_cases hc : (check && ((run (emit_component_jar_command r jar_path java_path)).returncode != 0))
      = true
  · rw [show emit_component_jar run loads r jar_path java_path check
        = Except.error (EmitError.runtime ("emitComponent failed (exit="
            ++ toString (run (emit_component_jar_command r jar_path java_path)).returncode
            ++ "): " ++ py_strip (run (emit_component_jar_command r jar_path java_path)).stderr))
        from by simp [emit_component_jar, hc]] at h
    exact absurd h (by simp)
  · have hc' : (check && ((run (emit_component_jar_command r jar_path java_path)).returncode != 0))
        = false := by
      revert hc
      cases check && ((run (emit_component_jar_command r jar_path java_path)).returncode != 0)
        <;> simp
    rw [show emit_component_jar run loads r jar_path java_path check
        = decode_result loads (run (emit_component_jar_command r jar_path java_path)).stdout
        from by simp [emit_component_jar, hc']] at h
    exact h

/-- C5 (counterexample): a zero-exit run whose stdout is the valid JSON
document `3` (a number, not an object) is returned as-is in the result's
data field, so the data field is not always a string-keyed mapping. -/
theorem C5_counterexample :
    emit_component false (fun _ => ProcResult.mk 0 "3" "")
        (fun s => if s == "3" then Except.ok (Json.num 3) else Except.error "Expecting value")
        (Request.mk "Pin" none none none false none none) none true
      = Except.ok (EmitResult.mk "3" (Json.num 3))
      ∧ is_mapping (Json.num 3) = false :=
  ⟨rfl, rfl⟩

/-- C5 (amended): every returned `EmitResult` carries the trimmed stdout
and exactly the JSON value the parser decoded from it (the empty mapping
when the trimmed stdout is empty); the wrapper does not constrain that
value to be a string-keyed mapping. -/
theorem C5_data_unchecked (os_is_nt : Bool) (run : List String → ProcResult)
    (loads : String → Except String Json) (r : Request) (gp : Option String)
    (jar_path java_path : String) (check : Bool) :
    (∀ res, emit_component os_is_nt run loads r gp check = Except.ok res →
      res.stdout = py_strip (run (emit_component_command os_is_nt r gp)).stdout
        ∧ ((py_strip (run (emit_component_command os_is_nt r gp)).stdout = ""
              ∧ res.data = Json.obj [])
            ∨ loads (py_strip (run (emit_component_command os_is_nt r gp)).stdout)
                = Except.ok res.data))
    ∧ (∀ res, emit_component_jar run loads r jar_path java_path check = Except.ok res →
      res.stdout = py_strip (run (emit_component_jar_command r jar_path java_path)).stdout
        ∧ ((py_strip (run (emit_component_jar_command r jar_path java_path)).stdout = ""
              ∧ res.data = Json.obj [])
            ∨ loads (py_strip (run (emit_component_jar_command r jar_path java_path)).stdout)
                = Except.ok res.data)) := by
  constructor
  · intro res h
    exact decode_result_ok_inv loads _ res
      (emit_component_ok_inv os_is_nt run loads r gp check res h)
  · intro res h
    exact decode_result_ok_inv loads _ res
      (emit_component_jar_ok_inv run loads r jar_path java_path check res h)

/-- C5 witness: for the concrete number-valued stdout `3`, the returned
data field is exactly the decoded value. -/
theorem C5_witness :
    emit_component false (fun _ => ProcResult.mk 0 "3" "")
        (fun s => if s == "3" then Except.ok (Json.num 3) else Except.error "Expecting value")
        (Request.mk "Pin" none none none false none none) none true
      = Except.ok (EmitResult.mk "3" (Json.num 3))
      ∧ ((EmitResult.mk "3" (Json.num 3)).stdout
            = py_strip ((fun _ => ProcResult.mk 0 "3" "") (emit_component_command false
                (Request.mk "Pin" none none none false none none) none)).stdout
          ∧ ((py_strip ((fun _ => ProcResult.mk 0 "3" "") (emit_component_command false
                  (Request.mk "Pin" none none none false none none) none)).stdout = ""
                ∧ (EmitResult.mk "3" (Json.num 3)).data = Json.obj [])
              ∨ (fun s => if s == "3" then Except.ok (Json.num 3)
                    else Except.error "Expecting value")
                  (py_strip ((fun _ => ProcResult.mk 0 "3" "") (emit_component_command false
                    (Request.mk "Pin" none none none false none none) none)).stdout)
                  = Except.ok (EmitResult.mk "3" (Json.num 3)).data)) := by
  refine ⟨rfl, ?_⟩
  exact (C5_data_unchecked false (fun _ => ProcResult.mk 0 "3" "")
    (fun s => if s == "3" then Except.ok (Json.num 3) else Except.error "Expecting value")
    (Request.mk "Pin" none none none false none none) none "jar" "java" true).1
    (EmitResult.mk "3" (Json.num 3)) rfl

/-- C6 (counterexample): for the single process argument `AND Gate`, the
direct-entry CLI passes `--args` and the shlex-quoted string as two
separate tokens; no token of the spawned command is the claimed single
`--args=<space-joined>` token, and the argument is not forwarded
verbatim (it gains surrounding single quotes). -/
theorem C6_counterexample :
    main_command ["AND Gate"]
        = ["./gradlew", "-q", "emitComponent", "--args", "\x27AND Gate\x27"]
      ∧ (main_command ["AND Gate"]).contains
          ("--args=" ++ String.intercalate " " ["AND Gate"]) = false
      ∧ (main_command ["AND Gate"]).contains "AND Gate" = false := by
  refine ⟨by decide, by decide, by decide⟩

theorem map_shlex_quote_of_safe (l : List String)
    (h : ∀ t ∈ l, ¬t = "" ∧ t.data.all shlexSafeChar = true) :
    l.map shlex_quote = l := by
  induction l with
  | nil => rfl
  | cons a rest ih =>
    have ha := h a (by simp)
    have hr := ih (fun t ht => h t (by simp [ht]))
    simp [shlex_quote, ha.1, ha.2, hr]

/-- C6 (amended): in direct-entry mode the wrapper spawns the build-tool
wrapper's `emitComponent` task with `--args` and the shlex-joined process
arguments as two separate tokens (each argument shell-quoted when it
contains unsafe characters), and returns the external process's exit
code; when every argument is non-empty and consists only of shlex-safe
characters the joined string is the verbatim space-join. -/
theorem C6_main_forwarding (run : List String → Int) (argv : List String) :
    cli_main run argv = run (main_command argv)
      ∧ main_command argv = ["./gradlew", "-q", "emitComponent", "--args", shlex_join argv]
      ∧ ((∀ t ∈ argv, ¬t = "" ∧ t.data.all shlexSafeChar = true) →
          shlex_join argv = String.intercalate " " argv) := by
  refine ⟨rfl, rfl, ?_⟩
  intro h
  rw [shlex_join, map_shlex_quote_of_safe argv h]

/-- C6 witness: safe tokens are joined verbatim. -/
theorem C6_witness :
    (∀ t ∈ ["--component", "Pin"], ¬t = "" ∧ t.data.all shlexSafeChar = true)
      ∧ shlex_join ["--component", "Pin"] = String.intercalate " " ["--component", "Pin"] :=
  ⟨by decide, (C6_main_forwarding (fun _ => 0) ["--component", "Pin"]).2.2 (by decide)⟩
